import Mathlib

/-!
Shallow embedding of the commit-smith orchestration workflow.

The functions below are translated from the TypeScript sources:
* `GitOperations` from `src/git/operations.ts` (the repository adapter),
* `CommitSchema` from `src/server/tools/schemas.ts`,
* `AGENT_PRESETS` from `src/config/agent-presets.ts`,
* `CommitToolHandlers.handleCommit` (the self-contained sampling variant),
* `ValidateAndCommitToolHandlers.handleValidateAndCommit`,
* `ValidationAdapterRegistry` / `CommitlintAdapter` from `src/validation/`.

External effects (simple-git calls, the fs write for `COMMIT_EDITMSG`, the
MCP sampling exchange, the commitlint `lint` call) are modelled by an
oracle structure giving the outcome of each underlying call in a run, and
every workflow step that invokes a collaborator is recorded in an explicit
event trace.  JavaScript exceptions become `Except` values; the `McpError`
pass-through / wrap-as-`InternalError` top-level catch of each handler is
modelled explicitly.
-/

/-- Structured rule violation, from `src/validation/interfaces.ts` (`ValidationError`). -/
structure ValidationError where
  rule : String
  message : String
deriving Repr, DecidableEq

/-- Validation outcome, from `src/validation/interfaces.ts` (`ValidationResult`). -/
structure ValidationResult where
  valid : Bool
  errors : List ValidationError
  warnings : List ValidationError
deriving Repr, DecidableEq

/-- One problem reported by the external `@commitlint/core` `lint` call
(`report.errors` / `report.warnings` entries carry `name` and `message`). -/
structure LintProblem where
  name : String
  message : String
deriving Repr, DecidableEq

/-- The report returned by the external `@commitlint/core` `lint` call. -/
structure LintReport where
  valid : Bool
  errors : List LintProblem
  warnings : List LintProblem
deriving Repr, DecidableEq

/-- Model of `CommitlintAdapter` from `src/validation/adapters/commitlint.adapter.ts`.
`configLoaded` models `this.config !== null`; `lintFn` models the behaviour of the
external `lint(message, this.config.rules)` call with the loaded rule set (a pure
function of the message per the validator contract). -/
structure ValidationAdapter where
  name : String
  configLoaded : Bool
  lintFn : String → LintReport
  formatErrorsFn : Option (List ValidationError → String)

/-- `CommitlintAdapter.validate`: throws when the configuration was never loaded,
otherwise maps the lint report to a `ValidationResult` (source lines 35-54). -/
def ValidationAdapter.validate (a : ValidationAdapter) (message : String) :
    Except String ValidationResult :=
  if a.configLoaded then
    let report := a.lintFn message
    .ok { valid := report.valid
          errors := report.errors.map (fun e => { rule := e.name, message := e.message })
          warnings := report.warnings.map (fun w => { rule := w.name, message := w.message }) }
  else
    .error "Configuration not loaded. Call loadConfig() first."

/-- The adapter registry (`src/validation/registry.ts`) as an association list;
the handlers only use `get`. -/
def ValidationAdapterRegistry := List (String × ValidationAdapter)

/-- `ValidationAdapterRegistry.get`: lookup by adapter name. -/
def ValidationAdapterRegistry.get (r : ValidationAdapterRegistry) (name : String) :
    Option ValidationAdapter :=
  match r with
  | [] => none
  | (k, a) :: rest => if k = name then some a else ValidationAdapterRegistry.get rest name

/-- JavaScript `s1 || s2` on strings: the empty string is falsy. -/
def jsOrStr (s d : String) : String := if s = "" then d else s

/-- JavaScript `opt || d` where `opt` is a possibly-absent string field. -/
def jsOrOptStr (s : Option String) (d : String) : String :=
  match s with
  | some v => if v = "" then d else v
  | none => d

/-- JavaScript `String.prototype.trim`, written with character-list operations
so that applications to literals reduce definitionally. -/
def jsTrim (s : String) : String :=
  String.mk (((s.data.dropWhile Char.isWhitespace).reverse.dropWhile Char.isWhitespace).reverse)

/-- Substring search on character lists. -/
def containsSub (hay pat : List Char) : Bool :=
  match hay with
  | [] => pat.isEmpty
  | _ :: t => if pat.isPrefixOf hay then true else containsSub t pat

/-- JavaScript `String.prototype.includes`. -/
def jsStringIncludes (s pat : String) : Bool := containsSub s.data pat.data

/-- Model of `JSON.stringify(errors, null, 2)`, used as the fallback rendering of
structured violations; no claim depends on its exact output. -/
def jsonStringifyErrors (errors : List ValidationError) : String :=
  "[" ++ String.intercalate ", " (errors.map (fun e =>
    "\x7b \"rule\": \"" ++ e.rule ++ "\", \"message\": \"" ++ e.message ++ "\" \x7d")) ++ "]"

/-! ## Repository adapter (`src/git/operations.ts`) -/

/-- The lists returned by `git.status()` that `getUnstagedFiles` concatenates. -/
structure GitStatus where
  not_added : List String
  modified : List String
  created : List String
  deleted : List String
deriving Repr, DecidableEq

/-- Outcomes of the underlying `simple-git` / `fs` calls during one run.  Each
field is the result the external call would produce at the point in the run
where the corresponding `GitOperations` method invokes it. -/
structure GitOracle where
  checkIsRepoResult : Except String Bool
  diffCachedNameOnly : Except String String
  statusResult : Except String GitStatus
  addResult : Except String Unit
  diffCached : Except String String
  prepareWriteResult : Except String Unit
  commitGitResult : Except String String
deriving Repr

/-- Shared mutable repository state the workflow writes to: the durable
pending-commit-message slot (`.git/COMMIT_EDITMSG`) and the commit log. -/
structure World where
  editmsg : Option String
  commitLog : List String
deriving Repr, DecidableEq

/-- `DiffResult` from `src/git/operations.ts`. -/
structure DiffResult where
  content : String
deriving Repr, DecidableEq

/-- `CommitResult` from `src/git/operations.ts`. -/
structure CommitResult where
  success : Bool
  commitSha : Option String
  message : Option String
  error : Option String
deriving Repr, DecidableEq

/-- `GitOperations.checkIsRepo`: returns `false` when the underlying call throws. -/
def GitOperations.checkIsRepo (o : GitOracle) : Bool :=
  match o.checkIsRepoResult with
  | .ok b => b
  | .error _ => false

/-- `GitOperations.hasStagedChanges`: `git diff --cached --name-only` output is
non-blank; `false` when the underlying call throws. -/
def GitOperations.hasStagedChanges (o : GitOracle) : Bool :=
  match o.diffCachedNameOnly with
  | .ok staged => decide (0 < (jsTrim staged).length)
  | .error _ => false

/-- `GitOperations.getUnstagedFiles`: concatenates the status lists and drops
blank entries; `[]` when the underlying call throws. -/
def GitOperations.getUnstagedFiles (o : GitOracle) : List String :=
  match o.statusResult with
  | .ok st =>
    (st.not_added ++ st.modified ++ st.created ++ st.deleted).filter
      (fun f => decide (0 < (jsTrim f).length))
  | .error _ => []

/-- `GitOperations.stageFiles`: rethrows the underlying `git add` failure with
the source's wrapper message. -/
def GitOperations.stageFiles (o : GitOracle) (_files : List String) : Except String Unit :=
  match o.addResult with
  | .ok _ => .ok ()
  | .error e => .error ("Failed to stage files: " ++ e)

/-- `GitOperations.getStagedDiff`: re-checks the repository, fetches
`git diff --cached --no-prefix`, and throws when the diff is empty (JS
falsiness of the empty string); every failure carries the source's wrapper. -/
def GitOperations.getStagedDiff (o : GitOracle) : Except String DiffResult :=
  match o.checkIsRepoResult with
  | .error e => .error ("Failed to get staged diff: " ++ e)
  | .ok false => .error "Failed to get staged diff: Not in a git repository"
  | .ok true =>
    match o.diffCached with
    | .error e => .error ("Failed to get staged diff: " ++ e)
    | .ok diffContent =>
      if diffContent = "" then
        .error "Failed to get staged diff: No staged changes found. Please stage your changes first with \x60git add\x60."
      else
        .ok { content := diffContent }

/-- `GitOperations.prepareCommitMessage`: writes the message into the pending
slot, rethrowing an underlying failure with the source's wrapper message. -/
def GitOperations.prepareCommitMessage (o : GitOracle) (w : World) (message : String) :
    Except String Unit × World :=
  match o.prepareWriteResult with
  | .ok _ => (.ok (), { w with editmsg := some message })
  | .error e => (.error ("Failed to prepare commit message: " ++ e), w)

/-- `GitOperations.commitWithMessage`: never throws; returns a structured
`CommitResult`, recording the commit in the world on success. -/
def GitOperations.commitWithMessage (o : GitOracle) (w : World) (message : String)
    (dryRun : Bool) : CommitResult × World :=
  if dryRun then
    ({ success := true, commitSha := none,
       message := some "Dry run: commit message is valid", error := none }, w)
  else
    match o.commitGitResult with
    | .ok sha =>
      ({ success := true, commitSha := some sha,
         message := some ("Committed successfully: " ++ sha), error := none },
       { w with commitLog := w.commitLog ++ [message] })
    | .error e =>
      ({ success := false, commitSha := none, message := none,
         error := some ("Failed to commit: " ++ e) }, w)

/-! ## Request schemas (`src/server/tools/schemas.ts`) -/

/-- Raw tool arguments for the `commit` tool before zod validation; `none`
models an absent field. -/
structure RawCommitArgs where
  request : Option String
  style : Option String
  auto_commit : Option Bool
  auto_stage : Option Bool
deriving Repr, DecidableEq

/-- Validated `commit` arguments. -/
structure CommitArgs where
  request : String
  style : String
  auto_commit : Bool
  auto_stage : Bool
deriving Repr, DecidableEq

/-- The style enumeration of `CommitSchema`. -/
def styleEnum : List String := ["default", "strict", "minimal", "descriptive"]

/-- `CommitSchema.parse`: required non-empty `request`, enumerated `style`
defaulting to `"default"`, boolean flags defaulting to `true`.  An input that
fails the schema is a thrown `ZodError`, modelled as `.error`. -/
def CommitSchema.parse (a : RawCommitArgs) : Except String CommitArgs :=
  match a.request with
  | none => .error "request: Required"
  | some r =>
    if r.length < 1 then
      .error "request: Request description is required"
    else
      let style := a.style.getD "default"
      if styleEnum.contains style then
        .ok { request := r, style := style,
              auto_commit := a.auto_commit.getD true,
              auto_stage := a.auto_stage.getD true }
      else
        .error ("style: Invalid enum value, received '" ++ style ++ "'")

/-- Raw tool arguments for the `validate_and_commit` tool. -/
structure RawVacArgs where
  message : Option String
  auto_commit : Option Bool
deriving Repr, DecidableEq

/-- Validated `validate_and_commit` arguments. -/
structure VacArgs where
  message : String
  auto_commit : Bool
deriving Repr, DecidableEq

/-- Modelled from the spec: the zod `ValidateAndCommitSchema` definition is in
`src/server/tools/schemas.ts`, whose text is not among the sources; per the
tool's declared `inputSchema` in `src/index.ts` and the spec's invocation
surface, `message` is a required string and `auto_commit` a boolean
defaulting to `true`. -/
def ValidateAndCommitSchema.parse (a : RawVacArgs) : Except String VacArgs :=
  match a.message with
  | none => .error "message: Required"
  | some m => .ok { message := m, auto_commit := a.auto_commit.getD true }

/-! ## Preset catalog (`src/config/agent-presets.ts`)

Only the fields the workflow reads (`buildSystemPrompt` / `buildUserMessage`)
are carried; optional fields that some presets omit are `Option`s, matching
the loosely-typed source records. -/

/-- The `agent` block of a preset. -/
structure PresetAgent where
  name : String
  mission : String
  founding_principle : String
deriving Repr, DecidableEq

/-- The `absolute_rules.language` block. -/
structure PresetLanguage where
  commit_messages : String
deriving Repr, DecidableEq

/-- The `absolute_rules.format.subject` block. -/
structure PresetSubject where
  max_length : Nat
deriving Repr, DecidableEq

/-- The `absolute_rules.format.body` block; `format` and `limit` are absent in
the `minimal` preset. -/
structure PresetBody where
  format : Option String
  limit : Option String
deriving Repr, DecidableEq

/-- The `absolute_rules.format` block. -/
structure PresetFormat where
  «structure» : String
  subject : PresetSubject
  body : PresetBody
deriving Repr, DecidableEq

/-- The `absolute_rules` block. -/
structure PresetRules where
  language : PresetLanguage
  format : PresetFormat
deriving Repr, DecidableEq

/-- The `instructions_for_ai.verbosity_control` block. -/
structure VerbosityControl where
  principle : String
deriving Repr, DecidableEq

/-- The `instructions_for_ai` block; every field but `behavior` is absent in
some presets. -/
structure PresetInstructions where
  behavior : String
  golden_rule : Option String
  verbosity_control : Option VerbosityControl
  language_enforcement : Option String
deriving Repr, DecidableEq

/-- The `output_format` block; only the `default` preset has one. -/
structure PresetOutputFormat where
  requirements : List String
deriving Repr, DecidableEq

/-- One preset record. -/
structure PresetConfig where
  agent : PresetAgent
  absolute_rules : PresetRules
  instructions_for_ai : PresetInstructions
  output_format : Option PresetOutputFormat
deriving Repr, DecidableEq

/-- The `default` preset entry. -/
def defaultPreset : PresetConfig :=
  { agent :=
      { name := "CommitSmith"
        mission := "Generate ONE valid Conventional Commit message, MAX 5 lines total, ALWAYS IN ENGLISH."
        founding_principle := "If it takes more than 5 lines, it belongs in a PR description, not a commit." }
    absolute_rules :=
      { language := { commit_messages := "ALWAYS English, regardless of user input language" }
        format :=
          { «structure» := "<type>(<scope>): <subject>\n\n<body>"
            subject := { max_length := 72 }
            body := { format := some "- Short business action (max 72 chars)"
                      limit := some "MAX 4 bullet points (1 line each)" } } }
    instructions_for_ai :=
      { behavior := "ACT LIKE A SCALPEL — MAX 5 lines, NO explanations."
        golden_rule := some "If you must choose between two points, keep the one impacting the end user."
        verbosity_control := some { principle := "MINIMAL OUTPUT - Only the commit message, NO explanations" }
        language_enforcement := some "CRITICAL: All commit messages must be in English, even if user communicates in another language" }
    output_format := some
      { requirements :=
          [ "Return ONLY the commit message, no code blocks or explanations"
          , "MUST include blank line between subject and body if body exists"
          , "Each body line should start with '- '"
          , "ALWAYS write commit message in English" ] } }

/-- The `strict` preset entry (no `output_format` block in the source). -/
def strictPreset : PresetConfig :=
  { agent :=
      { name := "CommitSmith-Strict"
        mission := "Generate PERFECT Conventional Commit messages with rigorous validation, ALWAYS IN ENGLISH."
        founding_principle := "Every commit must be enterprise-grade and audit-ready." }
    absolute_rules :=
      { language := { commit_messages := "ALWAYS English, mandatory for professional standards" }
        format :=
          { «structure» := "<type>(<scope>): <subject>\n\n<body>"
            subject := { max_length := 50 }
            body := { format := some "- Action taken (imperative mood, max 60 chars)"
                      limit := some "EXACTLY 2-3 bullet points" } } }
    instructions_for_ai :=
      { behavior := "PERFECTIONIST MODE - Every word matters."
        golden_rule := none
        verbosity_control := none
        language_enforcement := none }
    output_format := none }

/-- The `minimal` preset entry (no body `format`/`limit`, no `output_format`). -/
def minimalPreset : PresetConfig :=
  { agent :=
      { name := "CommitSmith-Minimal"
        mission := "Generate concise, single-line commit messages IN ENGLISH."
        founding_principle := "One line to rule them all." }
    absolute_rules :=
      { language := { commit_messages := "ALWAYS English for consistency" }
        format :=
          { «structure» := "<type>: <subject>"
            subject := { max_length := 72 }
            body := { format := none, limit := none } } }
    instructions_for_ai :=
      { behavior := "ULTRA CONCISE - One line only, no body, unless critical."
        golden_rule := none
        verbosity_control := none
        language_enforcement := none }
    output_format := none }

/-- The `descriptive` preset entry (no `output_format` block in the source). -/
def descriptivePreset : PresetConfig :=
  { agent :=
      { name := "CommitSmith-Descriptive"
        mission := "Generate detailed but structured commit messages with context IN ENGLISH."
        founding_principle := "Clarity through detail, but still structured." }
    absolute_rules :=
      { language := { commit_messages := "ALWAYS English for professional documentation" }
        format :=
          { «structure» := "<type>(<scope>): <subject>\n\n<body>"
            subject := { max_length := 72 }
            body := { format := some "- Detailed action with context (max 80 chars)"
                      limit := some "MAX 5 bullet points" } } }
    instructions_for_ai :=
      { behavior := "DETAILED BUT STRUCTURED - Provide context while maintaining format."
        golden_rule := none
        verbosity_control := none
        language_enforcement := none }
    output_format := none }

/-- `AGENT_PRESETS` as a string-keyed lookup; a key outside the four entries
yields `none` (JavaScript `undefined`). -/
def AGENT_PRESETS : String → Option PresetConfig
  | "default" => some defaultPreset
  | "strict" => some strictPreset
  | "minimal" => some minimalPreset
  | "descriptive" => some descriptivePreset
  | _ => none

/-! ## Generation requester (`CommitToolHandlers` private helpers) -/

/-- `buildSystemPrompt` (source lines 252-275): assembles the system prompt from
the preset; accessing `output_format.requirements` on a preset without an
`output_format` block raises a `TypeError` in the source, modelled as `.error`. -/
def buildSystemPrompt (pc : PresetConfig) : Except String String :=
  match pc.output_format with
  | none => .error "Cannot read properties of undefined (reading 'requirements')"
  | some ofmt =>
    .ok ("You are " ++ pc.agent.name ++ ". " ++ pc.agent.mission ++ ".\n    \n"
      ++ pc.agent.founding_principle
      ++ "\n\nRULES:\n- Language: " ++ pc.absolute_rules.language.commit_messages
      ++ "\n- Format: " ++ pc.absolute_rules.format.«structure»
      ++ "\n- Subject max length: " ++ toString pc.absolute_rules.format.subject.max_length
      ++ " characters\n- Body format: " ++ jsOrOptStr pc.absolute_rules.format.body.format "Not required"
      ++ "\n- Body limit: " ++ jsOrOptStr pc.absolute_rules.format.body.limit "Not required"
      ++ "\n\nINSTRUCTIONS:\n" ++ pc.instructions_for_ai.behavior ++ "\n"
      ++ (match pc.instructions_for_ai.golden_rule with
          | some g => "- " ++ g
          | none => "") ++ "\n"
      ++ (match pc.instructions_for_ai.verbosity_control with
          | some v => "- " ++ v.principle
          | none => "") ++ "\n"
      ++ (match pc.instructions_for_ai.language_enforcement with
          | some l => "- " ++ l
          | none => "")
      ++ "\n\nOUTPUT REQUIREMENTS:\n" ++ String.intercalate "\n- " ofmt.requirements)

/-- `buildUserMessage` (source lines 281-305): the user payload containing the
quoted intent, a style hint derived from the agent name, and the raw diff. -/
def buildUserMessage (diff userRequest : String) (pc : PresetConfig) : String :=
  let styleHint :=
    if jsStringIncludes pc.agent.name "Minimal" then "Keep it concise and brief."
    else if jsStringIncludes pc.agent.name "Strict" then "Follow the conventional commit format precisely."
    else if jsStringIncludes pc.agent.name "Descriptive" then "Provide context and details when appropriate."
    else "Follow standard conventional commit format."
  "User request: \"" ++ userRequest ++ "\"\n\nStyle guidance: " ++ styleHint
    ++ "\n\nGit diff:\n\x60\x60\x60\n" ++ diff
    ++ "\n\x60\x60\x60\n\nPlease generate a commit message based on the above diff and user request, following the specified format and rules."

/-- Outcome of the single `sampling/createMessage` request/reply exchange:
the transport rejects, the reply fails the `SamplingResponseSchema` zod shape,
or a schema-conforming reply arrives with the given `content.text`. -/
inductive SamplingOutcome where
  | transportError (msg : String)
  | malformedReply (msg : String)
  | reply (text : String)
deriving Repr, DecidableEq

/-- Collaborator invocations recorded during a run. -/
inductive Event where
  | gitCheckIsRepo
  | gitHasStagedChanges
  | gitGetUnstagedFiles
  | gitStageFiles (files : List String)
  | gitGetStagedDiff
  | samplingRequest (systemPrompt userMessage : String)
  | adapterValidate (message : String)
  | gitPrepareCommitMessage (message : String)
  | gitCommit (message : String)
deriving Repr, DecidableEq

/-- `generateCommitMessageWithSampling` (source lines 179-247): builds the two
prompts, issues exactly one sampling request, extracts and trims the reply
text when it is truthy, and collapses every failure (TypeError while building
the prompt, transport rejection, malformed reply shape, empty text payload)
into one thrown `"Failed to generate commit message using sampling: ..."`
error.  The returned event list records whether the request was sent. -/
def generateCommitMessageWithSampling (samp : SamplingOutcome)
    (diff userRequest : String) (presetConfig : Option PresetConfig) :
    Except String String × List Event :=
  match presetConfig with
  | none =>
    (.error "Failed to generate commit message using sampling: Cannot read properties of undefined (reading 'agent')", [])
  | some pc =>
    match buildSystemPrompt pc with
    | .error e => (.error ("Failed to generate commit message using sampling: " ++ e), [])
    | .ok systemPrompt =>
      let userMessage := buildUserMessage diff userRequest pc
      let sent := [Event.samplingRequest systemPrompt userMessage]
      match samp with
      | .transportError e =>
        (.error ("Failed to generate commit message using sampling: " ++ e), sent)
      | .malformedReply e =>
        (.error ("Failed to generate commit message using sampling: " ++ e), sent)
      | .reply text =>
        if text = "" then
          (.error "Failed to generate commit message using sampling: Invalid response from sampling request", sent)
        else
          (.ok (jsTrim text), sent)

/-! ## Handler results -/

/-- The MCP error codes the handlers use. -/
inductive ErrCode where
  | invalidParams
  | internalError
deriving Repr, DecidableEq

/-- An exception escaping a handler: either the zod schema throw (raised before
the handler's try block, so never wrapped) or a structured `McpError`. -/
inductive HandlerError where
  | zodError (msg : String)
  | mcpError (code : ErrCode) (msg : String)
deriving Repr, DecidableEq

/-- An exception inside a handler's try block: a structured `McpError`
(rethrown unchanged by the top-level catch) or a plain `Error` (wrapped). -/
inductive Thrown where
  | mcp (code : ErrCode) (msg : String)
  | err (msg : String)
deriving Repr, DecidableEq

/-- The top-level catch of a handler: `McpError`s pass through, anything else
is wrapped as an `InternalError` with the handler's wrapper message. -/
def wrapCaught (wrapper : String) : Thrown → HandlerError
  | .mcp c m => .mcpError c m
  | .err m => .mcpError .internalError (wrapper ++ m)

/-- Fields of the success payload of the `commit` tool (JSON keys of the
success object, source lines 143-158; the constant `success: true` flag is
implied by the constructor). -/
structure CommitSuccessPayload where
  message : String
  commit_message : String
  validation_valid : Bool
  validation_warnings : List ValidationError
  files_staged : Nat
  auto_committed : Bool
  commit_sha : Option String
  next_step : String
deriving Repr, DecidableEq

/-- The three non-exceptional payloads of the `commit` tool:
`needsConfirmation` and `validationFailed` carry `success: false`,
`completed` carries `success: true`. -/
inductive CommitPayload where
  | needsConfirmation (message : String) (unstaged_files : List String) (suggestion : String)
  | validationFailed (generated_message : String) (validation_errors : List ValidationError)
      (formatted_errors : String) (suggestion : String)
  | completed (p : CommitSuccessPayload)
deriving Repr, DecidableEq

/-- Fields of the success payload of the `validate_and_commit` tool
(source lines 67-81).  Unlike the `commit` tool there is no staged-files
count. -/
structure VacSuccessPayload where
  message : String
  commit_message : String
  validation_valid : Bool
  validation_warnings : List ValidationError
  auto_committed : Bool
  commit_sha : Option String
  next_step : String
deriving Repr, DecidableEq

/-- The non-exceptional payloads of the `validate_and_commit` tool.  Note the
rejection payload carries only the violations, their rendering and a
suggestion — the candidate message itself is not among its fields. -/
inductive VacPayload where
  | validationFailed (validation_errors : List ValidationError)
      (formatted_errors : String) (suggestion : String)
  | completed (p : VacSuccessPayload)
deriving Repr, DecidableEq

/-- `validateCommitMessage` (identical private helper of both handler classes):
a missing `commitlint` adapter accepts every message with no validator run. -/
def validateCommitMessage (reg : ValidationAdapterRegistry) (message : String) :
    Except String ValidationResult :=
  match reg.get "commitlint" with
  | none => .ok { valid := true, errors := [], warnings := [] }
  | some adapter => adapter.validate message

/-- The `adapter?.formatErrors?.(errors) ?? JSON.stringify(errors, null, 2)`
rendering used on a validation rejection. -/
def formattedErrorsFor (reg : ValidationAdapterRegistry) (errors : List ValidationError) : String :=
  match reg.get "commitlint" with
  | some a =>
    match a.formatErrorsFn with
    | some f => f errors
    | none => jsonStringifyErrors errors
  | none => jsonStringifyErrors errors

/-! ## The `commit` tool handler (`CommitToolHandlers.handleCommit`, sampling variant) -/

/-- Tail of `handleCommit` from the staged-diff retrieval on (source lines
76-164): diff, preset selection, generation, validation, persistence and the
auto-commit decision. -/
def handleCommitCore (o : GitOracle) (reg : ValidationAdapterRegistry)
    (samp : SamplingOutcome) (w : World) (va : CommitArgs) (filesStaged : Nat)
    (t : List Event) : Except Thrown CommitPayload × World × List Event :=
  let t4 := t ++ [Event.gitGetStagedDiff]
  match GitOperations.getStagedDiff o with
  | .error e => (.error (.err e), w, t4)
  | .ok stagedDiff =>
    let gen := generateCommitMessageWithSampling samp stagedDiff.content va.request
      (AGENT_PRESETS (jsOrStr va.style "default"))
    match gen.1 with
    | .error e => (.error (.err e), w, t4 ++ gen.2)
    | .ok commitMessage =>
      let t5 := t4 ++ gen.2 ++ [Event.adapterValidate commitMessage]
      match validateCommitMessage reg commitMessage with
      | .error e => (.error (.err e), w, t5)
      | .ok validation =>
        if !validation.valid then
          (.ok (.validationFailed commitMessage validation.errors
            (formattedErrorsFor reg validation.errors)
            "The generated commit message doesn't meet the validation requirements. Please try again with different parameters."),
           w, t5)
        else
          let t6 := t5 ++ [Event.gitPrepareCommitMessage commitMessage]
          let prep := GitOperations.prepareCommitMessage o w commitMessage
          match prep.1 with
          | .error e => (.error (.err e), prep.2, t6)
          | .ok _ =>
            if va.auto_commit then
              let t7 := t6 ++ [Event.gitCommit commitMessage]
              let cw := GitOperations.commitWithMessage o prep.2 commitMessage false
              if !cw.1.success then
                (.error (.mcp .internalError (jsOrOptStr cw.1.error "Failed to commit")), cw.2, t7)
              else
                (.ok (.completed
                  { message := "Commit process completed successfully"
                    commit_message := commitMessage
                    validation_valid := validation.valid
                    validation_warnings := validation.warnings
                    files_staged := filesStaged
                    auto_committed := true
                    commit_sha := cw.1.commitSha
                    next_step := "Commit completed successfully" }), cw.2, t7)
            else
              (.ok (.completed
                { message := "Commit process completed successfully"
                  commit_message := commitMessage
                  validation_valid := validation.valid
                  validation_warnings := validation.warnings
                  files_staged := filesStaged
                  auto_committed := false
                  commit_sha := none
                  next_step := "Please review the commit message in your editor and commit manually" }),
               prep.2, t6)

/-- Body of `handleCommit`'s try block (source lines 20-164): repository
check, staged-changes check, unstaged-file resolution (note the source only
enumerates unstaged files when `auto_stage` is true), then the tail above. -/
def handleCommitTry (o : GitOracle) (reg : ValidationAdapterRegistry)
    (samp : SamplingOutcome) (w : World) (va : CommitArgs) :
    Except Thrown CommitPayload × World × List Event :=
  let t0 := [Event.gitCheckIsRepo]
  if !GitOperations.checkIsRepo o then
    (.error (.mcp .invalidParams "Not in a git repository"), w, t0)
  else
    let hasStagedChanges := GitOperations.hasStagedChanges o
    let t1 := t0 ++ [Event.gitHasStagedChanges]
    let unstagedFiles := if va.auto_stage then GitOperations.getUnstagedFiles o else []
    let t2 := t1 ++ (if va.auto_stage then [Event.gitGetUnstagedFiles] else [])
    if !hasStagedChanges && unstagedFiles.isEmpty then
      (.error (.mcp .invalidParams "No staged or unstaged changes found"), w, t2)
    else
      if unstagedFiles.length > 0 then
        if va.auto_stage then
          let t3 := t2 ++ [Event.gitStageFiles unstagedFiles]
          match GitOperations.stageFiles o unstagedFiles with
          | .error e => (.error (.err e), w, t3)
          | .ok _ => handleCommitCore o reg samp w va unstagedFiles.length t3
        else
          (.ok (.needsConfirmation
            ("Found " ++ toString unstagedFiles.length ++ " unstaged files. Please confirm if you want to stage them:")
            unstagedFiles
            "You can call the commit tool again with auto_stage: true to automatically stage these files."),
           w, t2)
      else
        handleCommitCore o reg samp w va 0 t2

/-- `CommitToolHandlers.handleCommit`: schema parse (outside the try block, so
a `ZodError` escapes unwrapped), then the try body with the top-level catch
wrapping plain errors as `"Commit operation failed: ..."`. -/
def handleCommit (o : GitOracle) (reg : ValidationAdapterRegistry)
    (samp : SamplingOutcome) (w : World) (args : RawCommitArgs) :
    Except HandlerError CommitPayload × World × List Event :=
  match CommitSchema.parse args with
  | .error m => (.error (.zodError m), w, [])
  | .ok va =>
    let r := handleCommitTry o reg samp w va
    match r.1 with
    | .error th => (.error (wrapCaught "Commit operation failed: " th), r.2.1, r.2.2)
    | .ok p => (.ok p, r.2.1, r.2.2)

/-! ## The `validate_and_commit` tool handler -/

/-- Body of `handleValidateAndCommit`'s try block (source lines 17-87):
repository check, validation, persistence, auto-commit decision. -/
def handleValidateAndCommitTry (o : GitOracle) (reg : ValidationAdapterRegistry)
    (w : World) (va : VacArgs) : Except Thrown VacPayload × World × List Event :=
  let t0 := [Event.gitCheckIsRepo]
  if !GitOperations.checkIsRepo o then
    (.error (.mcp .invalidParams "Not in a git repository"), w, t0)
  else
    let t1 := t0 ++ [Event.adapterValidate va.message]
    match validateCommitMessage reg va.message with
    | .error e => (.error (.err e), w, t1)
    | .ok validation =>
      if !validation.valid then
        (.ok (.validationFailed validation.errors
          (formattedErrorsFor reg validation.errors)
          "The commit message doesn't meet the validation requirements. Please fix the message and try again."),
         w, t1)
      else
        let t2 := t1 ++ [Event.gitPrepareCommitMessage va.message]
        let prep := GitOperations.prepareCommitMessage o w va.message
        match prep.1 with
        | .error e => (.error (.err e), prep.2, t2)
        | .ok _ =>
          if va.auto_commit then
            let t3 := t2 ++ [Event.gitCommit va.message]
            let cw := GitOperations.commitWithMessage o prep.2 va.message false
            if !cw.1.success then
              (.error (.mcp .internalError (jsOrOptStr cw.1.error "Failed to commit")), cw.2, t3)
            else
              (.ok (.completed
                { message := "Commit message validated and prepared successfully"
                  commit_message := va.message
                  validation_valid := validation.valid
                  validation_warnings := validation.warnings
                  auto_committed := true
                  commit_sha := cw.1.commitSha
                  next_step := "Commit completed successfully" }), cw.2, t3)
          else
            (.ok (.completed
              { message := "Commit message validated and prepared successfully"
                commit_message := va.message
                validation_valid := validation.valid
                validation_warnings := validation.warnings
                auto_committed := false
                commit_sha := none
                next_step := "Please review the commit message in your editor and commit manually" }),
             prep.2, t2)

/-- `ValidateAndCommitToolHandlers.handleValidateAndCommit`: schema parse, then
the try body with the top-level catch wrapping plain errors as
`"Validate and commit operation failed: ..."`. -/
def handleValidateAndCommit (o : GitOracle) (reg : ValidationAdapterRegistry)
    (w : World) (args : RawVacArgs) :
    Except HandlerError VacPayload × World × List Event :=
  match ValidateAndCommitSchema.parse args with
  | .error m => (.error (.zodError m), w, [])
  | .ok va =>
    let r := handleValidateAndCommitTry o reg w va
    match r.1 with
    | .error th => (.error (wrapCaught "Validate and commit operation failed: " th), r.2.1, r.2.2)
    | .ok p => (.ok p, r.2.1, r.2.2)

/-! ## Trace observations -/

/-- Whether the `commitlint` adapter accepts a message (the orchestrator's
acceptance condition: the validation step returned `valid = true`). -/
def acceptedBy (reg : ValidationAdapterRegistry) (m : String) : Bool :=
  match validateCommitMessage reg m with
  | .ok v => v.valid
  | .error _ => false

/-- Number of persistence invocations in a trace. -/
def persistCount (t : List Event) : Nat :=
  t.countP (fun e => match e with | .gitPrepareCommitMessage _ => true | _ => false)

/-- Number of commit invocations in a trace. -/
def commitCount (t : List Event) : Nat :=
  t.countP (fun e => match e with | .gitCommit _ => true | _ => false)

/-- Number of staging invocations in a trace. -/
def stageCount (t : List Event) : Nat :=
  t.countP (fun e => match e with | .gitStageFiles _ => true | _ => false)

/-- Number of sampling (generation) requests in a trace. -/
def samplingCount (t : List Event) : Nat :=
  t.countP (fun e => match e with | .samplingRequest _ _ => true | _ => false)

/-! ## Concrete oracles, registries and worlds used by witnesses and counterexamples -/

def oHappy : GitOracle :=
  { checkIsRepoResult := .ok true
    diffCachedNameOnly := .ok ""
    statusResult := .ok { not_added := ["a.txt"], modified := ["b.txt"], created := [], deleted := [] }
    addResult := .ok ()
    diffCached := .ok "diff content"
    prepareWriteResult := .ok ()
    commitGitResult := .ok "abc123" }

def oNoRepo : GitOracle := { oHappy with checkIsRepoResult := Except.ok false }

def regAccept : ValidationAdapterRegistry :=
  [("commitlint",
    { name := "commitlint", configLoaded := true,
      lintFn := fun _ => { valid := true, errors := [], warnings := [] },
      formatErrorsFn := none })]

def rejectReport : LintReport :=
  { valid := false
    errors := [{ name := "type-empty", message := "type may not be empty" }]
    warnings := [] }

def regReject : ValidationAdapterRegistry :=
  [("commitlint",
    { name := "commitlint", configLoaded := true,
      lintFn := fun _ => rejectReport,
      formatErrorsFn := none })]

def w0 : World := { editmsg := none, commitLog := [] }

def oPrepFail : GitOracle := { oHappy with prepareWriteResult := Except.error "EACCES: permission denied" }

def lintConsistent (a : ValidationAdapter) : Prop :=
  ∀ m, (a.lintFn m).valid = false → (a.lintFn m).errors ≠ []

def isConfPayload : CommitPayload → Bool
  | .needsConfirmation _ _ _ => true
  | _ => false

def isConfResult {e : Type} : Except e CommitPayload → Bool
  | .ok p => isConfPayload p
  | _ => false

def oNothing : GitOracle :=
  { oHappy with statusResult := Except.ok { not_added := [], modified := [], created := [], deleted := [] } }

def oEmptyDiff : GitOracle := { oHappy with diffCached := Except.ok "" }

/-! ## Lemmas and claim theorems -/

theorem gen_events_shape (samp : SamplingOutcome) (d r : String) (pc : Option PresetConfig) :
    (generateCommitMessageWithSampling samp d r pc).2 = [] ∨
    ∃ s u, (generateCommitMessageWithSampling samp d r pc).2 = [Event.samplingRequest s u] := by
  unfold generateCommitMessageWithSampling
  dsimp only
  repeat' split
  all_goals simp

theorem mem_gen_ne_persist (samp : SamplingOutcome) (d r : String) (pc : Option PresetConfig)
    (m : String) : Event.gitPrepareCommitMessage m ∉ (generateCommitMessageWithSampling samp d r pc).2 := by
  rcases gen_events_shape samp d r pc with h | ⟨s, u, h⟩ <;> simp [h]

theorem mem_gen_ne_commit (samp : SamplingOutcome) (d r : String) (pc : Option PresetConfig)
    (m : String) : Event.gitCommit m ∉ (generateCommitMessageWithSampling samp d r pc).2 := by
  rcases gen_events_shape samp d r pc with h | ⟨s, u, h⟩ <;> simp [h]

theorem mem_gen_ne_validate (samp : SamplingOutcome) (d r : String) (pc : Option PresetConfig)
    (m : String) : Event.adapterValidate m ∉ (generateCommitMessageWithSampling samp d r pc).2 := by
  rcases gen_events_shape samp d r pc with h | ⟨s, u, h⟩ <;> simp [h]

theorem mem_gen_ne_stage (samp : SamplingOutcome) (d r : String) (pc : Option PresetConfig)
    (l : List String) : Event.gitStageFiles l ∉ (generateCommitMessageWithSampling samp d r pc).2 := by
  rcases gen_events_shape samp d r pc with h | ⟨s, u, h⟩ <;> simp [h]

theorem acceptedBy_of {reg : ValidationAdapterRegistry} {m : String} {v : ValidationResult}
    (h : validateCommitMessage reg m = .ok v) (hv : v.valid = true) :
    acceptedBy reg m = true := by
  unfold acceptedBy
  rw [h]
  exact hv

theorem core_persist_accepted (o : GitOracle) (reg : ValidationAdapterRegistry)
    (samp : SamplingOutcome) (w : World) (va : CommitArgs) (n : Nat) (t : List Event) :
    ∀ m, Event.gitPrepareCommitMessage m ∈ (handleCommitCore o reg samp w va n t).2.2 →
      Event.gitPrepareCommitMessage m ∈ t ∨ acceptedBy reg m = true := by
  unfold handleCommitCore
  dsimp only
  repeat' split
  all_goals intro m hm
  all_goals simp_all [List.mem_append, acceptedBy, mem_gen_ne_persist]
  all_goals
    rcases hm with hm | hm
    · exact Or.inl hm
    · subst hm
      simp_all

theorem prepare_ok_of {o : GitOracle} {w : World} {m : String} {a : Unit}
    (h : (GitOperations.prepareCommitMessage o w m).1 = Except.ok a) :
    o.prepareWriteResult = Except.ok () := by
  unfold GitOperations.prepareCommitMessage at h
  cases hpw : o.prepareWriteResult <;> simp_all

theorem core_commit_facts (o : GitOracle) (reg : ValidationAdapterRegistry)
    (samp : SamplingOutcome) (w : World) (va : CommitArgs) (n : Nat) (t : List Event) :
    ∀ m, Event.gitCommit m ∈ (handleCommitCore o reg samp w va n t).2.2 →
      Event.gitCommit m ∈ t ∨
      (acceptedBy reg m = true ∧ va.auto_commit = true ∧
        Event.gitPrepareCommitMessage m ∈ (handleCommitCore o reg samp w va n t).2.2 ∧
        o.prepareWriteResult = Except.ok ()) := by
  unfold handleCommitCore
  dsimp only
  repeat' split
  all_goals intro m hm
  all_goals simp_all [List.mem_append, mem_gen_ne_commit]
  all_goals
    rcases hm with hm | hm
    · exact Or.inl hm
    · subst hm
      cases hpw : o.prepareWriteResult <;>
        simp_all [acceptedBy, GitOperations.prepareCommitMessage]

theorem persistCount_gen (samp : SamplingOutcome) (d r : String) (pc : Option PresetConfig) :
    persistCount (generateCommitMessageWithSampling samp d r pc).2 = 0 := by
  rcases gen_events_shape samp d r pc with h | ⟨s, u, h⟩ <;> simp [persistCount, h]

theorem commitCount_gen (samp : SamplingOutcome) (d r : String) (pc : Option PresetConfig) :
    commitCount (generateCommitMessageWithSampling samp d r pc).2 = 0 := by
  rcases gen_events_shape samp d r pc with h | ⟨s, u, h⟩ <;> simp [commitCount, h]

theorem stageCount_gen (samp : SamplingOutcome) (d r : String) (pc : Option PresetConfig) :
    stageCount (generateCommitMessageWithSampling samp d r pc).2 = 0 := by
  rcases gen_events_shape samp d r pc with h | ⟨s, u, h⟩ <;> simp [stageCount, h]

theorem persistCount_nil : persistCount [] = 0 := rfl

theorem persistCount_append (l₁ l₂ : List Event) :
    persistCount (l₁ ++ l₂) = persistCount l₁ + persistCount l₂ := by
  simp [persistCount, List.countP_append]

theorem persistCount_cons (e : Event) (l : List Event) :
    persistCount (e :: l) =
      persistCount l + (match e with | Event.gitPrepareCommitMessage _ => 1 | _ => 0) := by
  cases e <;> simp [persistCount, List.countP_cons]

theorem commitCount_nil : commitCount [] = 0 := rfl

theorem commitCount_append (l₁ l₂ : List Event) :
    commitCount (l₁ ++ l₂) = commitCount l₁ + commitCount l₂ := by
  simp [commitCount, List.countP_append]

theorem commitCount_cons (e : Event) (l : List Event) :
    commitCount (e :: l) =
      commitCount l + (match e with | Event.gitCommit _ => 1 | _ => 0) := by
  cases e <;> simp [commitCount, List.countP_cons]

theorem stageCount_nil : stageCount [] = 0 := rfl

theorem stageCount_append (l₁ l₂ : List Event) :
    stageCount (l₁ ++ l₂) = stageCount l₁ + stageCount l₂ := by
  simp [stageCount, List.countP_append]

theorem stageCount_cons (e : Event) (l : List Event) :
    stageCount (e :: l) =
      stageCount l + (match e with | Event.gitStageFiles _ => 1 | _ => 0) := by
  cases e <;> simp [stageCount, List.countP_cons]

theorem samplingCount_nil : samplingCount [] = 0 := rfl

theorem samplingCount_append (l₁ l₂ : List Event) :
    samplingCount (l₁ ++ l₂) = samplingCount l₁ + samplingCount l₂ := by
  simp [samplingCount, List.countP_append]

theorem samplingCount_cons (e : Event) (l : List Event) :
    samplingCount (e :: l) =
      samplingCount l + (match e with | Event.samplingRequest _ _ => 1 | _ => 0) := by
  cases e <;> simp [samplingCount, List.countP_cons]

theorem samplingCount_gen_le (samp : SamplingOutcome) (d r : String) (pc : Option PresetConfig) :
    samplingCount (generateCommitMessageWithSampling samp d r pc).2 ≤ 1 := by
  rcases gen_events_shape samp d r pc with h | ⟨s, u, h⟩ <;>
    simp [samplingCount, h, List.countP_cons]

theorem core_persist_le (o : GitOracle) (reg : ValidationAdapterRegistry)
    (samp : SamplingOutcome) (w : World) (va : CommitArgs) (n : Nat) (t : List Event) :
    persistCount (handleCommitCore o reg samp w va n t).2.2 ≤ persistCount t + 1 := by
  unfold handleCommitCore
  dsimp only
  repeat' split
  all_goals simp [persistCount_append, persistCount_cons, persistCount_nil, persistCount_gen]

theorem core_commit_le (o : GitOracle) (reg : ValidationAdapterRegistry)
    (samp : SamplingOutcome) (w : World) (va : CommitArgs) (n : Nat) (t : List Event) :
    commitCount (handleCommitCore o reg samp w va n t).2.2 ≤ commitCount t + 1 := by
  unfold handleCommitCore
  dsimp only
  repeat' split
  all_goals simp [commitCount_append, commitCount_cons, commitCount_nil, commitCount_gen]

theorem core_accept_persists (o : GitOracle) (reg : ValidationAdapterRegistry)
    (samp : SamplingOutcome) (w : World) (va : CommitArgs) (n : Nat) (t : List Event) :
    ∀ m, Event.adapterValidate m ∈ (handleCommitCore o reg samp w va n t).2.2 →
      Event.adapterValidate m ∉ t → acceptedBy reg m = true →
      Event.gitPrepareCommitMessage m ∈ (handleCommitCore o reg samp w va n t).2.2 := by
  unfold handleCommitCore
  dsimp only
  repeat' split
  all_goals intro m hm hnt hacc
  all_goals simp_all [List.mem_append, mem_gen_ne_validate]
  all_goals subst hm
  all_goals simp_all [acceptedBy]

theorem core_persist_commits (o : GitOracle) (reg : ValidationAdapterRegistry)
    (samp : SamplingOutcome) (w : World) (va : CommitArgs) (n : Nat) (t : List Event) :
    ∀ m, Event.gitPrepareCommitMessage m ∈ (handleCommitCore o reg samp w va n t).2.2 →
      Event.gitPrepareCommitMessage m ∉ t →
      o.prepareWriteResult = Except.ok () → va.auto_commit = true →
      Event.gitCommit m ∈ (handleCommitCore o reg samp w va n t).2.2 := by
  unfold handleCommitCore
  dsimp only
  repeat' split
  all_goals intro m hm hnt hpw hac
  all_goals simp_all [List.mem_append, mem_gen_ne_persist]
  all_goals subst hm
  all_goals simp_all [GitOperations.prepareCommitMessage]

theorem core_stage_count (o : GitOracle) (reg : ValidationAdapterRegistry)
    (samp : SamplingOutcome) (w : World) (va : CommitArgs) (n : Nat) (t : List Event) :
    stageCount (handleCommitCore o reg samp w va n t).2.2 = stageCount t := by
  unfold handleCommitCore
  dsimp only
  repeat' split
  all_goals simp [stageCount_append, stageCount_cons, stageCount_nil, stageCount_gen]

theorem core_files_staged (o : GitOracle) (reg : ValidationAdapterRegistry)
    (samp : SamplingOutcome) (w : World) (va : CommitArgs) (n : Nat) (t : List Event) :
    ∀ p, (handleCommitCore o reg samp w va n t).1 = .ok (.completed p) →
      p.files_staged = n := by
  unfold handleCommitCore
  dsimp only
  repeat' split
  all_goals intro p hp
  all_goals simp_all
  all_goals subst hp
  all_goals rfl

theorem core_trace_superset (o : GitOracle) (reg : ValidationAdapterRegistry)
    (samp : SamplingOutcome) (w : World) (va : CommitArgs) (n : Nat) (t : List Event) :
    ∀ e ∈ t, e ∈ (handleCommitCore o reg samp w va n t).2.2 := by
  unfold handleCommitCore
  dsimp only
  repeat' split
  all_goals intro e he
  all_goals simp [List.mem_append, he]

theorem try_persist_accepted (o : GitOracle) (reg : ValidationAdapterRegistry)
    (samp : SamplingOutcome) (w : World) (va : CommitArgs) :
    ∀ m, Event.gitPrepareCommitMessage m ∈ (handleCommitTry o reg samp w va).2.2 →
      acceptedBy reg m = true := by
  unfold handleCommitTry
  dsimp only
  repeat' split
  all_goals intro m hm
  all_goals solve
    | simp_all
    | (rcases core_persist_accepted o reg samp w va _ _ m hm with h | h
       · simp at h
       · exact h)

theorem try_commit_facts (o : GitOracle) (reg : ValidationAdapterRegistry)
    (samp : SamplingOutcome) (w : World) (va : CommitArgs) :
    ∀ m, Event.gitCommit m ∈ (handleCommitTry o reg samp w va).2.2 →
      acceptedBy reg m = true ∧ va.auto_commit = true ∧
      Event.gitPrepareCommitMessage m ∈ (handleCommitTry o reg samp w va).2.2 ∧
      o.prepareWriteResult = Except.ok () := by
  unfold handleCommitTry
  dsimp only
  repeat' split
  all_goals intro m hm
  all_goals solve
    | simp_all
    | (rcases core_commit_facts o reg samp w va _ _ m hm with h | h
       · simp at h
       · exact h)

theorem try_persist_le (o : GitOracle) (reg : ValidationAdapterRegistry)
    (samp : SamplingOutcome) (w : World) (va : CommitArgs) :
    persistCount (handleCommitTry o reg samp w va).2.2 ≤ 1 := by
  unfold handleCommitTry
  dsimp only
  repeat' split
  all_goals solve
    | simp [persistCount_append, persistCount_cons, persistCount_nil]
    | (refine le_trans (core_persist_le o reg samp w va _ _) ?_
       simp [persistCount_append, persistCount_cons, persistCount_nil])

theorem try_commit_le (o : GitOracle) (reg : ValidationAdapterRegistry)
    (samp : SamplingOutcome) (w : World) (va : CommitArgs) :
    commitCount (handleCommitTry o reg samp w va).2.2 ≤ 1 := by
  unfold handleCommitTry
  dsimp only
  repeat' split
  all_goals solve
    | simp [commitCount_append, commitCount_cons, commitCount_nil]
    | (refine le_trans (core_commit_le o reg samp w va _ _) ?_
       simp [commitCount_append, commitCount_cons, commitCount_nil])

theorem try_accept_persists (o : GitOracle) (reg : ValidationAdapterRegistry)
    (samp : SamplingOutcome) (w : World) (va : CommitArgs) :
    ∀ m, Event.adapterValidate m ∈ (handleCommitTry o reg samp w va).2.2 →
      acceptedBy reg m = true →
      Event.gitPrepareCommitMessage m ∈ (handleCommitTry o reg samp w va).2.2 := by
  unfold handleCommitTry
  dsimp only
  repeat' split
  all_goals intro m hm hacc
  all_goals solve
    | simp_all
    | (exact core_accept_persists o reg samp w va _ _ m hm (by simp) hacc)

theorem try_persist_commits (o : GitOracle) (reg : ValidationAdapterRegistry)
    (samp : SamplingOutcome) (w : World) (va : CommitArgs) :
    ∀ m, Event.gitPrepareCommitMessage m ∈ (handleCommitTry o reg samp w va).2.2 →
      o.prepareWriteResult = Except.ok () → va.auto_commit = true →
      Event.gitCommit m ∈ (handleCommitTry o reg samp w va).2.2 := by
  unfold handleCommitTry
  dsimp only
  repeat' split
  all_goals intro m hm hpw hac
  all_goals solve
    | simp_all
    | (exact core_persist_commits o reg samp w va _ _ m hm (by simp) hpw hac)

theorem handleCommit_proj (o : GitOracle) (reg : ValidationAdapterRegistry)
    (samp : SamplingOutcome) (w : World) (args : RawCommitArgs) (va : CommitArgs)
    (hp : CommitSchema.parse args = .ok va) :
    (handleCommit o reg samp w args).2.2 = (handleCommitTry o reg samp w va).2.2 := by
  unfold handleCommit
  simp only [hp]
  cases (handleCommitTry o reg samp w va).1 <;> rfl

/-- Claim C6: when the repository check returns false, both entry points terminate immediately with the "Not in a git repository" InvalidParams error and a trace containing only the repository check — no staging, diff retrieval, generation, validation, persistence or commit is attempted. -/
theorem C6_not_a_repository :
    (∀ (o : GitOracle) (reg : ValidationAdapterRegistry) (samp : SamplingOutcome)
        (w : World) (args : RawCommitArgs) (va : CommitArgs),
        CommitSchema.parse args = .ok va →
        GitOperations.checkIsRepo o = false →
        handleCommit o reg samp w args
          = (.error (.mcpError .invalidParams "Not in a git repository"), w, [Event.gitCheckIsRepo]))
    ∧ (∀ (o : GitOracle) (reg : ValidationAdapterRegistry) (w : World)
        (args : RawVacArgs) (va : VacArgs),
        ValidateAndCommitSchema.parse args = .ok va →
        GitOperations.checkIsRepo o = false →
        handleValidateAndCommit o reg w args
          = (.error (.mcpError .invalidParams "Not in a git repository"), w, [Event.gitCheckIsRepo])) := by
  constructor
  · intro o reg samp w args va hp hrepo
    unfold handleCommit handleCommitTry
    simp [hp, hrepo, wrapCaught]
  · intro o reg w args va hp hrepo
    unfold handleValidateAndCommit handleValidateAndCommitTry
    simp [hp, hrepo, wrapCaught]

/-- Claim C5: with no staged changes and no enumerated unstaged files the run fails with the "No staged or unstaged changes found" condition, and when the staged diff is empty at diff retrieval the run fails with the wrapped empty-diff condition; in both cases no sampling (generation) request is issued. -/
theorem C5_nothing_to_commit :
    (∀ (o : GitOracle) (reg : ValidationAdapterRegistry) (samp : SamplingOutcome)
        (w : World) (args : RawCommitArgs) (va : CommitArgs),
        CommitSchema.parse args = .ok va →
        GitOperations.checkIsRepo o = true →
        GitOperations.hasStagedChanges o = false →
        GitOperations.getUnstagedFiles o = [] →
        (handleCommit o reg samp w args).1
          = .error (.mcpError .invalidParams "No staged or unstaged changes found")
        ∧ samplingCount (handleCommit o reg samp w args).2.2 = 0)
    ∧ (∀ (o : GitOracle) (reg : ValidationAdapterRegistry) (samp : SamplingOutcome)
        (w : World) (args : RawCommitArgs) (va : CommitArgs),
        CommitSchema.parse args = .ok va →
        o.checkIsRepoResult = .ok true →
        o.diffCached = .ok "" →
        o.addResult = .ok () →
        (GitOperations.hasStagedChanges o = true ∨
          (va.auto_stage = true ∧ GitOperations.getUnstagedFiles o ≠ [])) →
        (handleCommit o reg samp w args).1
          = .error (.mcpError .internalError "Commit operation failed: Failed to get staged diff: No staged changes found. Please stage your changes first with \x60git add\x60.")
        ∧ samplingCount (handleCommit o reg samp w args).2.2 = 0) := by
  constructor
  · intro o reg samp w args va hp hrepo hstaged hunst
    unfold handleCommit handleCommitTry
    cases has : va.auto_stage <;>
      simp [hp, hrepo, hstaged, hunst, has, wrapCaught, samplingCount_append,
        samplingCount_cons, samplingCount_nil]
  · intro o reg samp w args va hp hrepoR hdiff hadd hpath
    have hrepo : GitOperations.checkIsRepo o = true := by
      simp [GitOperations.checkIsRepo, hrepoR]
    have hgd : GitOperations.getStagedDiff o
        = .error "Failed to get staged diff: No staged changes found. Please stage your changes first with \x60git add\x60." := by
      simp [GitOperations.getStagedDiff, hrepoR, hdiff]
    have hstage : GitOperations.stageFiles o (GitOperations.getUnstagedFiles o) = .ok () := by
      simp [GitOperations.stageFiles, hadd]
    unfold handleCommit handleCommitTry handleCommitCore
    rcases hpath with hstaged | ⟨has, hunst⟩
    · cases has : va.auto_stage <;>
        cases hunst2 : (GitOperations.getUnstagedFiles o).isEmpty <;>
        simp_all [wrapCaught, samplingCount_append, samplingCount_cons, samplingCount_nil,
          List.isEmpty_iff, List.length_pos, GitOperations.stageFiles]
    · cases hstaged : GitOperations.hasStagedChanges o <;>
        simp_all [wrapCaught, samplingCount_append, samplingCount_cons, samplingCount_nil,
          List.isEmpty_iff, List.length_pos, GitOperations.stageFiles]

/-- Claim C7: with `auto_stage` true and a non-empty enumerated unstaged set, the staging operation is invoked exactly once, with exactly the enumerated list, and any success payload reports `files_staged` equal to the size of that list. -/
theorem C7_staging_exact :
    ∀ (o : GitOracle) (reg : ValidationAdapterRegistry) (samp : SamplingOutcome)
      (w : World) (args : RawCommitArgs) (va : CommitArgs),
      CommitSchema.parse args = .ok va →
      va.auto_stage = true →
      GitOperations.checkIsRepo o = true →
      GitOperations.getUnstagedFiles o ≠ [] →
      stageCount (handleCommit o reg samp w args).2.2 = 1
      ∧ Event.gitStageFiles (GitOperations.getUnstagedFiles o) ∈ (handleCommit o reg samp w args).2.2
      ∧ ∀ p, (handleCommit o reg samp w args).1 = .ok (.completed p) →
          p.files_staged = (GitOperations.getUnstagedFiles o).length := by
  intro o reg samp w args va hp has hrepo hunst
  have htr := handleCommit_proj o reg samp w args va hp
  refine ⟨?_, ?_, ?_⟩
  · rw [htr]
    unfold handleCommitTry
    dsimp only
    cases hadd : o.addResult <;>
      simp_all [List.isEmpty_iff, List.length_pos, GitOperations.stageFiles,
        stageCount_append, stageCount_cons, stageCount_nil, core_stage_count]
  · rw [htr]
    unfold handleCommitTry
    dsimp only
    cases hadd : o.addResult <;>
      simp_all [List.isEmpty_iff, List.length_pos, GitOperations.stageFiles]
    · apply core_trace_superset
      simp
  · intro p hpres
    unfold handleCommit at hpres
    simp only [hp] at hpres
    cases hok : (handleCommitTry o reg samp w va).1 <;> simp [hok] at hpres
    rename_i pl
    subst hpres
    revert hok
    unfold handleCommitTry
    dsimp only
    cases hadd : o.addResult <;>
      simp_all [List.isEmpty_iff, List.length_pos, GitOperations.stageFiles]
    intro hok
    exact core_files_staged o reg samp w va _ _ p hok

theorem handleVac_proj (o : GitOracle) (reg : ValidationAdapterRegistry)
    (w : World) (args : RawVacArgs) (va : VacArgs)
    (hp : ValidateAndCommitSchema.parse args = .ok va) :
    (handleValidateAndCommit o reg w args).2.2 = (handleValidateAndCommitTry o reg w va).2.2 := by
  unfold handleValidateAndCommit
  simp only [hp]
  cases (handleValidateAndCommitTry o reg w va).1 <;> rfl

theorem vacTry_persist_accepted (o : GitOracle) (reg : ValidationAdapterRegistry)
    (w : World) (va : VacArgs) :
    ∀ m, Event.gitPrepareCommitMessage m ∈ (handleValidateAndCommitTry o reg w va).2.2 →
      acceptedBy reg m = true := by
  unfold handleValidateAndCommitTry
  dsimp only
  repeat' split
  all_goals intro m hm
  all_goals simp_all [List.mem_append]
  all_goals subst hm
  all_goals simp_all [acceptedBy]

theorem vacTry_persist_le (o : GitOracle) (reg : ValidationAdapterRegistry)
    (w : World) (va : VacArgs) :
    persistCount (handleValidateAndCommitTry o reg w va).2.2 ≤ 1 := by
  unfold handleValidateAndCommitTry
  dsimp only
  repeat' split
  all_goals simp [persistCount_append, persistCount_cons, persistCount_nil]

theorem vacTry_commit_le (o : GitOracle) (reg : ValidationAdapterRegistry)
    (w : World) (va : VacArgs) :
    commitCount (handleValidateAndCommitTry o reg w va).2.2 ≤ 1 := by
  unfold handleValidateAndCommitTry
  dsimp only
  repeat' split
  all_goals simp [commitCount_append, commitCount_cons, commitCount_nil]

theorem vacTry_commit_facts (o : GitOracle) (reg : ValidationAdapterRegistry)
    (w : World) (va : VacArgs) :
    ∀ m, Event.gitCommit m ∈ (handleValidateAndCommitTry o reg w va).2.2 →
      acceptedBy reg m = true ∧ va.auto_commit = true ∧
      Event.gitPrepareCommitMessage m ∈ (handleValidateAndCommitTry o reg w va).2.2 ∧
      o.prepareWriteResult = Except.ok () := by
  unfold handleValidateAndCommitTry
  dsimp only
  repeat' split
  all_goals intro m hm
  all_goals simp_all [List.mem_append]
  all_goals subst hm
  all_goals
    cases hpw : o.prepareWriteResult <;>
      simp_all [acceptedBy, GitOperations.prepareCommitMessage]

theorem vacTry_persist_commits (o : GitOracle) (reg : ValidationAdapterRegistry)
    (w : World) (va : VacArgs) :
    ∀ m, Event.gitPrepareCommitMessage m ∈ (handleValidateAndCommitTry o reg w va).2.2 →
      o.prepareWriteResult = Except.ok () → va.auto_commit = true →
      Event.gitCommit m ∈ (handleValidateAndCommitTry o reg w va).2.2 := by
  unfold handleValidateAndCommitTry
  dsimp only
  repeat' split
  all_goals intro m hm hpw hac
  all_goals simp_all [List.mem_append, GitOperations.prepareCommitMessage]

theorem vacTry_accept_persists (o : GitOracle) (reg : ValidationAdapterRegistry)
    (w : World) (va : VacArgs) :
    ∀ m, Event.adapterValidate m ∈ (handleValidateAndCommitTry o reg w va).2.2 →
      acceptedBy reg m = true →
      Event.gitPrepareCommitMessage m ∈ (handleValidateAndCommitTry o reg w va).2.2 := by
  unfold handleValidateAndCommitTry
  dsimp only
  repeat' split
  all_goals intro m hm hacc
  all_goals simp_all [List.mem_append]
  all_goals subst hm
  all_goals simp_all [acceptedBy]

/-- Claim C2 counterexample: a run whose validator accepts and whose `auto_commit` is true, but whose persistence write fails, invokes persistence once and never invokes the commit operation — refuting "a commit call occurs if and only if auto_commit was true". -/
theorem C2_persist_failure_counterexample :
    acceptedBy regAccept "feat: add x" = true
    ∧ (handleValidateAndCommit oPrepFail regAccept w0
        { message := some "feat: add x", auto_commit := some true }).1
      = .error (.mcpError .internalError
          "Validate and commit operation failed: Failed to prepare commit message: EACCES: permission denied")
    ∧ persistCount (handleValidateAndCommit oPrepFail regAccept w0
        { message := some "feat: add x", auto_commit := some true }).2.2 = 1
    ∧ commitCount (handleValidateAndCommit oPrepFail regAccept w0
        { message := some "feat: add x", auto_commit := some true }).2.2 = 0 := by
  refine ⟨rfl, rfl, rfl, rfl⟩

/-- Claim C2 (amended): in every run of either entry point, persistence and commit are invoked only with a message the validator accepts; persistence is invoked at most once, and exactly once when the validation step accepts; the commit operation is invoked if and only if the message was accepted, `auto_commit` is true and the persistence write succeeded. -/
theorem C2_validation_gates_persistence :
    (∀ (o : GitOracle) (reg : ValidationAdapterRegistry) (samp : SamplingOutcome)
        (w : World) (args : RawCommitArgs) (va : CommitArgs),
        CommitSchema.parse args = .ok va →
        (∀ m, Event.gitPrepareCommitMessage m ∈ (handleCommit o reg samp w args).2.2 →
          acceptedBy reg m = true)
        ∧ persistCount (handleCommit o reg samp w args).2.2 ≤ 1
        ∧ commitCount (handleCommit o reg samp w args).2.2 ≤ 1
        ∧ (∀ m, Event.adapterValidate m ∈ (handleCommit o reg samp w args).2.2 →
            acceptedBy reg m = true →
            Event.gitPrepareCommitMessage m ∈ (handleCommit o reg samp w args).2.2)
        ∧ (∀ m, Event.gitCommit m ∈ (handleCommit o reg samp w args).2.2 →
            acceptedBy reg m = true ∧ va.auto_commit = true ∧
            Event.gitPrepareCommitMessage m ∈ (handleCommit o reg samp w args).2.2 ∧
            o.prepareWriteResult = Except.ok ())
        ∧ (∀ m, Event.gitPrepareCommitMessage m ∈ (handleCommit o reg samp w args).2.2 →
            o.prepareWriteResult = Except.ok () → va.auto_commit = true →
            Event.gitCommit m ∈ (handleCommit o reg samp w args).2.2))
    ∧ (∀ (o : GitOracle) (reg : ValidationAdapterRegistry) (w : World)
        (args : RawVacArgs) (va : VacArgs),
        ValidateAndCommitSchema.parse args = .ok va →
        (∀ m, Event.gitPrepareCommitMessage m ∈ (handleValidateAndCommit o reg w args).2.2 →
          acceptedBy reg m = true)
        ∧ persistCount (handleValidateAndCommit o reg w args).2.2 ≤ 1
        ∧ commitCount (handleValidateAndCommit o reg w args).2.2 ≤ 1
        ∧ (∀ m, Event.adapterValidate m ∈ (handleValidateAndCommit o reg w args).2.2 →
            acceptedBy reg m = true →
            Event.gitPrepareCommitMessage m ∈ (handleValidateAndCommit o reg w args).2.2)
        ∧ (∀ m, Event.gitCommit m ∈ (handleValidateAndCommit o reg w args).2.2 →
            acceptedBy reg m = true ∧ va.auto_commit = true ∧
            Event.gitPrepareCommitMessage m ∈ (handleValidateAndCommit o reg w args).2.2 ∧
            o.prepareWriteResult = Except.ok ())
        ∧ (∀ m, Event.gitPrepareCommitMessage m ∈ (handleValidateAndCommit o reg w args).2.2 →
            o.prepareWriteResult = Except.ok () → va.auto_commit = true →
            Event.gitCommit m ∈ (handleValidateAndCommit o reg w args).2.2)) := by
  constructor
  · intro o reg samp w args va hp
    have htr := handleCommit_proj o reg samp w args va hp
    rw [htr]
    exact ⟨try_persist_accepted o reg samp w va,
      try_persist_le o reg samp w va,
      try_commit_le o reg samp w va,
      try_accept_persists o reg samp w va,
      try_commit_facts o reg samp w va,
      try_persist_commits o reg samp w va⟩
  · intro o reg w args va hp
    have htr := handleVac_proj o reg w args va hp
    rw [htr]
    exact ⟨vacTry_persist_accepted o reg w va,
      vacTry_persist_le o reg w va,
      vacTry_commit_le o reg w va,
      vacTry_accept_persists o reg w va,
      vacTry_commit_facts o reg w va,
      vacTry_persist_commits o reg w va⟩

theorem handleCommit_ok_iff (o : GitOracle) (reg : ValidationAdapterRegistry)
    (samp : SamplingOutcome) (w : World) (args : RawCommitArgs) (va : CommitArgs)
    (p : CommitPayload) (hp : CommitSchema.parse args = .ok va) :
    (handleCommit o reg samp w args).1 = .ok p ↔ (handleCommitTry o reg samp w va).1 = .ok p := by
  unfold handleCommit
  simp only [hp]
  cases (handleCommitTry o reg samp w va).1 <;> simp

theorem handleVac_ok_iff (o : GitOracle) (reg : ValidationAdapterRegistry)
    (w : World) (args : RawVacArgs) (va : VacArgs)
    (p : VacPayload) (hp : ValidateAndCommitSchema.parse args = .ok va) :
    (handleValidateAndCommit o reg w args).1 = .ok p ↔
      (handleValidateAndCommitTry o reg w va).1 = .ok p := by
  unfold handleValidateAndCommit
  simp only [hp]
  cases (handleValidateAndCommitTry o reg w va).1 <;> simp

theorem gen_ok_inv {samp : SamplingOutcome} {d r : String} {pc : Option PresetConfig} {cm : String}
    (h : (generateCommitMessageWithSampling samp d r pc).1 = .ok cm) :
    ∃ text, samp = .reply text ∧ text ≠ "" ∧ cm = jsTrim text := by
  revert h
  unfold generateCommitMessageWithSampling
  dsimp only
  repeat' split
  all_goals intro h
  all_goals simp_all

theorem core_validationFailed_inv {o : GitOracle} {reg : ValidationAdapterRegistry}
    {samp : SamplingOutcome} {w : World} {va : CommitArgs} {n : Nat} {t : List Event}
    {gm : String} {E : List ValidationError} {F S : String}
    (h : (handleCommitCore o reg samp w va n t).1 = .ok (.validationFailed gm E F S)) :
    (∃ df, GitOperations.getStagedDiff o = .ok df ∧
      (generateCommitMessageWithSampling samp df.content va.request
        (AGENT_PRESETS (jsOrStr va.style "default"))).1 = .ok gm)
    ∧ (∃ v, validateCommitMessage reg gm = .ok v ∧ v.valid = false ∧
        E = v.errors ∧ F = formattedErrorsFor reg v.errors)
    ∧ persistCount (handleCommitCore o reg samp w va n t).2.2 = persistCount t
    ∧ commitCount (handleCommitCore o reg samp w va n t).2.2 = commitCount t := by
  revert h
  unfold handleCommitCore
  dsimp only
  repeat' split
  all_goals intro h
  all_goals simp_all
  obtain ⟨h1, h2, h3, h4⟩ := h
  refine ⟨?_, ?_, ?_⟩
  · rw [← h3, h2]
  · simp [persistCount_append, persistCount_cons, persistCount_nil, persistCount_gen]
  · simp [commitCount_append, commitCount_cons, commitCount_nil, commitCount_gen]

theorem try_validationFailed_inv {o : GitOracle} {reg : ValidationAdapterRegistry}
    {samp : SamplingOutcome} {w : World} {va : CommitArgs}
    {gm : String} {E : List ValidationError} {F S : String}
    (h : (handleCommitTry o reg samp w va).1 = .ok (.validationFailed gm E F S)) :
    (∃ text, samp = .reply text ∧ gm = jsTrim text)
    ∧ (∃ v, validateCommitMessage reg gm = .ok v ∧ v.valid = false ∧
        E = v.errors ∧ F = formattedErrorsFor reg v.errors)
    ∧ persistCount (handleCommitTry o reg samp w va).2.2 = 0
    ∧ commitCount (handleCommitTry o reg samp w va).2.2 = 0 := by
  revert h
  unfold handleCommitTry
  dsimp only
  repeat' split
  all_goals intro h
  all_goals try simp_all
  all_goals
    obtain ⟨⟨df, hdf, hgen⟩, hv, hpc, hcc⟩ := core_validationFailed_inv h
  all_goals obtain ⟨text, htext, _, hgm⟩ := gen_ok_inv hgen
  all_goals
    refine ⟨⟨text, htext, hgm⟩, hv, ?_, ?_⟩ <;>
      simp_all [persistCount_append, persistCount_cons, persistCount_nil,
        commitCount_append, commitCount_cons, commitCount_nil]

theorem vacTry_validationFailed_inv {o : GitOracle} {reg : ValidationAdapterRegistry}
    {w : World} {va : VacArgs} {E : List ValidationError} {F S : String}
    (h : (handleValidateAndCommitTry o reg w va).1 = .ok (.validationFailed E F S)) :
    (∃ v, validateCommitMessage reg va.message = .ok v ∧ v.valid = false ∧
        E = v.errors ∧ F = formattedErrorsFor reg v.errors)
    ∧ persistCount (handleValidateAndCommitTry o reg w va).2.2 = 0
    ∧ commitCount (handleValidateAndCommitTry o reg w va).2.2 = 0 := by
  revert h
  unfold handleValidateAndCommitTry
  dsimp only
  repeat' split
  all_goals intro h
  all_goals simp_all
  obtain ⟨h1, h2, h3⟩ := h
  refine ⟨?_, ?_, ?_⟩
  · rw [← h2, h1]
  · simp [persistCount, List.countP_cons]
  · simp [commitCount, List.countP_cons]

theorem consistent_invalid_nonempty
    {reg : ValidationAdapterRegistry} {a : ValidationAdapter} {m : String} {v : ValidationResult}
    (hget : reg.get "commitlint" = some a) (hcons : lintConsistent a)
    (hval : validateCommitMessage reg m = .ok v) (hvalid : v.valid = false) :
    v.errors ≠ [] := by
  unfold validateCommitMessage at hval
  rw [hget] at hval
  unfold ValidationAdapter.validate at hval
  by_cases hc : a.configLoaded = true
  · simp [hc] at hval
    have herrs := hcons m
    subst hval
    simp_all
  · simp [hc] at hval

/-- Claim C3 counterexample: a rejected run of the direct-validate entry point returns a payload whose fields (violations, formatted errors, suggestion) nowhere contain the candidate message "BADMSG" — the original candidate is not echoed back, unlike the claim demands for every run. -/
theorem C3_direct_validate_no_echo_counterexample :
    (handleValidateAndCommit oHappy regReject w0
        { message := some "BADMSG", auto_commit := some true }).1
      = .ok (.validationFailed [{ rule := "type-empty", message := "type may not be empty" }]
          (jsonStringifyErrors [{ rule := "type-empty", message := "type may not be empty" }])
          "The commit message doesn't meet the validation requirements. Please fix the message and try again.")
    ∧ jsStringIncludes (jsonStringifyErrors
        [{ rule := "type-empty", message := "type may not be empty" }]) "BADMSG" = false
    ∧ jsStringIncludes "type-empty" "BADMSG" = false
    ∧ jsStringIncludes "type may not be empty" "BADMSG" = false
    ∧ jsStringIncludes "The commit message doesn't meet the validation requirements. Please fix the message and try again." "BADMSG" = false
    ∧ commitCount (handleValidateAndCommit oHappy regReject w0
        { message := some "BADMSG", auto_commit := some true }).2.2 = 0 := by
  refine ⟨rfl, by decide, by decide, by decide, by decide, rfl⟩

/-- Claim C3 (amended): a validator rejection returns (does not throw) a `success = false` payload carrying the structured violations and their human-formatted rendering, and never invokes persistence or commit; the generation entry point echoes the trimmed candidate back unchanged, while the direct-validate entry point omits it; the violations list is non-empty for any adapter whose lint reports are consistent. -/
theorem C3_rejection_payload :
    (∀ (o : GitOracle) (reg : ValidationAdapterRegistry) (samp : SamplingOutcome)
        (w : World) (args : RawCommitArgs) (va : CommitArgs)
        (gm : String) (E : List ValidationError) (F S : String),
        CommitSchema.parse args = .ok va →
        (handleCommit o reg samp w args).1 = .ok (.validationFailed gm E F S) →
        (∃ text, samp = .reply text ∧ gm = jsTrim text)
        ∧ (∃ v, validateCommitMessage reg gm = .ok v ∧ v.valid = false ∧
            E = v.errors ∧ F = formattedErrorsFor reg v.errors)
        ∧ persistCount (handleCommit o reg samp w args).2.2 = 0
        ∧ commitCount (handleCommit o reg samp w args).2.2 = 0)
    ∧ (∀ (o : GitOracle) (reg : ValidationAdapterRegistry) (w : World)
        (args : RawVacArgs) (va : VacArgs)
        (E : List ValidationError) (F S : String),
        ValidateAndCommitSchema.parse args = .ok va →
        (handleValidateAndCommit o reg w args).1 = .ok (.validationFailed E F S) →
        (∃ v, validateCommitMessage reg va.message = .ok v ∧ v.valid = false ∧
            E = v.errors ∧ F = formattedErrorsFor reg v.errors)
        ∧ persistCount (handleValidateAndCommit o reg w args).2.2 = 0
        ∧ commitCount (handleValidateAndCommit o reg w args).2.2 = 0)
    ∧ (∀ (reg : ValidationAdapterRegistry) (a : ValidationAdapter) (m : String)
        (v : ValidationResult),
        reg.get "commitlint" = some a → lintConsistent a →
        validateCommitMessage reg m = .ok v → v.valid = false → v.errors ≠ []) := by
  refine ⟨?_, ?_, fun reg a m v hget hcons hval hvalid =>
    consistent_invalid_nonempty hget hcons hval hvalid⟩
  · intro o reg samp w args va gm E F S hp hres
    rw [handleCommit_ok_iff o reg samp w args va _ hp] at hres
    obtain ⟨htext, hv, hpc, hcc⟩ := try_validationFailed_inv hres
    rw [handleCommit_proj o reg samp w args va hp]
    exact ⟨htext, hv, hpc, hcc⟩
  · intro o reg w args va E F S hp hres
    rw [handleVac_ok_iff o reg w args va _ hp] at hres
    obtain ⟨hv, hpc, hcc⟩ := vacTry_validationFailed_inv hres
    rw [handleVac_proj o reg w args va hp]
    exact ⟨hv, hpc, hcc⟩

/-- Claim C4 counterexample: a request with the unknown style "fancy" is rejected by the schema (a thrown ZodError) before any preset resolution — no fallback to the default preset happens, and the catalog holds nothing under "fancy". -/
theorem C4_unknown_style_rejected_counterexample :
    CommitSchema.parse
      { request := some "add feature", style := some "fancy", auto_commit := none, auto_stage := none }
      = .error "style: Invalid enum value, received 'fancy'"
    ∧ AGENT_PRESETS "fancy" = none
    ∧ handleCommit oHappy regAccept (.reply "feat: add x") w0
        { request := some "add feature", style := some "fancy", auto_commit := none, auto_stage := none }
      = (.error (.zodError "style: Invalid enum value, received 'fancy'"), w0, []) := by
  refine ⟨rfl, rfl, rfl⟩

/-- Claim C4 (amended): every request accepted by the schema resolves to a defined preset; an absent style defaults to "default"; a style name outside the enumeration is rejected at schema validation rather than falling back. -/
theorem C4_preset_resolution :
    (∀ (args : RawCommitArgs) (va : CommitArgs),
        CommitSchema.parse args = .ok va →
        ∃ pc, AGENT_PRESETS (jsOrStr va.style "default") = some pc)
    ∧ (∀ (args : RawCommitArgs) (va : CommitArgs),
        args.style = none → CommitSchema.parse args = .ok va → va.style = "default")
    ∧ (∀ (args : RawCommitArgs) (s : String),
        args.style = some s → styleEnum.contains s = false →
        ∃ e, CommitSchema.parse args = .error e) := by
  refine ⟨?_, ?_, ?_⟩
  · intro args va hp
    unfold CommitSchema.parse at hp
    cases hreq : args.request <;> simp [hreq] at hp
    split at hp
    · exact absurd hp (by simp)
    · split at hp
      · rename_i hcontains
        injection hp with hp2
        subst hp2
        simp [styleEnum] at hcontains
        rcases hcontains with h | h | h | h <;> simp [h, jsOrStr, AGENT_PRESETS]
      · exact absurd hp (by simp)
  · intro args va hnone hp
    unfold CommitSchema.parse at hp
    cases hreq : args.request <;> simp [hreq, hnone] at hp
    split at hp
    · exact absurd hp (by simp)
    · injection hp with hp2
      subst hp2
      rfl
  · intro args s hs hcont
    unfold CommitSchema.parse
    cases hreq : args.request <;> simp [hreq, hs, hcont]
    split
    · exact ⟨_, rfl⟩
    · have hmem : s ∉ styleEnum := by simpa using hcont
      rw [if_neg hmem]
      exact ⟨_, rfl⟩

theorem core_not_conf (o : GitOracle) (reg : ValidationAdapterRegistry)
    (samp : SamplingOutcome) (w : World) (va : CommitArgs) (n : Nat) (t : List Event) :
    isConfResult (handleCommitCore o reg samp w va n t).1 = false := by
  unfold handleCommitCore
  dsimp only
  repeat' split
  all_goals rfl

theorem try_not_conf (o : GitOracle) (reg : ValidationAdapterRegistry)
    (samp : SamplingOutcome) (w : World) (va : CommitArgs) :
    isConfResult (handleCommitTry o reg samp w va).1 = false := by
  unfold handleCommitTry
  dsimp only
  repeat' split
  all_goals solve
    | rfl
    | apply core_not_conf
    | simp_all

/-- Claim C1 (code bug): with `auto_stage = false`, unstaged files present and nothing staged, `handleCommit` throws the "No staged or unstaged changes found" `McpError` instead of returning the `needs_confirmation` payload the spec describes; moreover the confirmation payload is unreachable in every run, because unstaged files are only enumerated when `auto_stage` is true. -/
theorem C1_confirmation_unreachable :
    handleCommit oHappy regAccept (.reply "feat: add x") w0
      { request := some "fix the parsing bug", style := none, auto_commit := some true, auto_stage := some false }
      = (.error (.mcpError .invalidParams "No staged or unstaged changes found"), w0,
         [Event.gitCheckIsRepo, Event.gitHasStagedChanges])
    ∧ GitOperations.getUnstagedFiles oHappy = ["a.txt", "b.txt"]
    ∧ GitOperations.hasStagedChanges oHappy = false
    ∧ ∀ (o : GitOracle) (reg : ValidationAdapterRegistry) (samp : SamplingOutcome)
        (w : World) (args : RawCommitArgs),
        isConfResult (handleCommit o reg samp w args).1 = false := by
  refine ⟨rfl, rfl, rfl, ?_⟩
  intro o reg samp w args
  unfold handleCommit
  dsimp only
  cases hp : CommitSchema.parse args
  · rfl
  · rename_i va
    cases hok : (handleCommitTry o reg samp w va).1
    · simp only [hok]
      rfl
    · rename_i p
      simp only [hok]
      have h := try_not_conf o reg samp w va
      rw [hok] at h
      simp only [isConfResult] at h ⊢
      exact h

/-- Claim C8: a transport failure, a reply failing the structured schema, and an empty reply text each produce the single "Failed to generate commit message using sampling: ..." error after exactly one sampling request (no client-side retry), and the top-level catch surfaces any such error as the one wrapped internal-error condition. -/
theorem C8_generation_failure_collapse (d r : String) (pc : PresetConfig) (ofmt : PresetOutputFormat)
    (h : pc.output_format = some ofmt) :
    (∀ e, (generateCommitMessageWithSampling (.transportError e) d r (some pc)).1
        = .error ("Failed to generate commit message using sampling: " ++ e)
      ∧ samplingCount (generateCommitMessageWithSampling (.transportError e) d r (some pc)).2 = 1)
    ∧ (∀ e, (generateCommitMessageWithSampling (.malformedReply e) d r (some pc)).1
        = .error ("Failed to generate commit message using sampling: " ++ e)
      ∧ samplingCount (generateCommitMessageWithSampling (.malformedReply e) d r (some pc)).2 = 1)
    ∧ ((generateCommitMessageWithSampling (.reply "") d r (some pc)).1
        = .error ("Failed to generate commit message using sampling: "
            ++ "Invalid response from sampling request")
      ∧ samplingCount (generateCommitMessageWithSampling (.reply "") d r (some pc)).2 = 1)
    ∧ (∀ g, wrapCaught "Commit operation failed: " (.err g)
        = .mcpError .internalError ("Commit operation failed: " ++ g)) := by
  unfold generateCommitMessageWithSampling buildSystemPrompt
  simp [h, samplingCount, List.countP_cons, wrapCaught]

theorem vacTry_fst_world (o : GitOracle) (reg : ValidationAdapterRegistry) (va : VacArgs)
    (w w' : World) :
    (handleValidateAndCommitTry o reg w va).1 = (handleValidateAndCommitTry o reg w' va).1 := by
  unfold handleValidateAndCommitTry GitOperations.prepareCommitMessage GitOperations.commitWithMessage
  dsimp only
  cases hpw : o.prepareWriteResult <;> cases hcg : o.commitGitResult <;>
    (repeat' split) <;> simp_all

theorem vac_fst_world (o : GitOracle) (reg : ValidationAdapterRegistry)
    (args : RawVacArgs) (w w' : World) :
    (handleValidateAndCommit o reg w args).1 = (handleValidateAndCommit o reg w' args).1 := by
  unfold handleValidateAndCommit
  cases hp : ValidateAndCommitSchema.parse args <;> simp only [hp] <;>
    first
    | rfl
    | (rename_i va
       rw [vacTry_fst_world o reg va w w']
       cases (handleValidateAndCommitTry o reg w' va).1 <;> rfl)

/-- Claim C9: invoking the direct-validate entry point a second time with the same message, on the world state produced by a first run with `auto_commit = false`, returns the same result — in particular the same validation outcome; validation reads no state the first run mutated. -/
theorem C9_validate_idempotent :
    ∀ (o : GitOracle) (reg : ValidationAdapterRegistry) (w : World) (args : RawVacArgs),
      args.auto_commit = some false →
      (handleValidateAndCommit o reg ((handleValidateAndCommit o reg w args).2.1) args).1
        = (handleValidateAndCommit o reg w args).1 := by
  intro o reg w args _
  exact vac_fst_world o reg args _ w

/-- Claim C10: with no adapter registered under "commitlint", the internal validation step returns `valid = true` with empty errors and warnings, so every candidate — including the empty message — is persisted, and committed when `auto_commit` is true, without any validator running. -/
theorem C10_missing_adapter_accepts :
    (∀ (reg : ValidationAdapterRegistry) (m : String),
        reg.get "commitlint" = none →
        validateCommitMessage reg m = .ok { valid := true, errors := [], warnings := [] })
    ∧ (∀ (o : GitOracle) (reg : ValidationAdapterRegistry) (w : World)
        (args : RawVacArgs) (va : VacArgs),
        ValidateAndCommitSchema.parse args = .ok va →
        reg.get "commitlint" = none →
        GitOperations.checkIsRepo o = true →
        o.prepareWriteResult = Except.ok () →
        Event.gitPrepareCommitMessage va.message ∈ (handleValidateAndCommit o reg w args).2.2
        ∧ (va.auto_commit = true →
            Event.gitCommit va.message ∈ (handleValidateAndCommit o reg w args).2.2)) := by
  constructor
  · intro reg m hreg
    unfold validateCommitMessage
    rw [hreg]
  · intro o reg w args va hp hreg hrepo hpw
    rw [handleVac_proj o reg w args va hp]
    unfold handleValidateAndCommitTry
    cases hac : va.auto_commit <;>
      simp [hrepo, validateCommitMessage, hreg, GitOperations.prepareCommitMessage, hpw, hac,
        GitOperations.commitWithMessage] <;>
      cases hcg : o.commitGitResult <;> simp

/-- Witness for `C2_validation_gates_persistence` at a concrete accepting run with `auto_commit = true`. -/
theorem C2_validation_gates_persistence_witness :
    persistCount (handleValidateAndCommit oHappy regAccept w0
      { message := some "feat: add x", auto_commit := some true }).2.2 ≤ 1
    ∧ Event.gitCommit "feat: add x" ∈ (handleValidateAndCommit oHappy regAccept w0
      { message := some "feat: add x", auto_commit := some true }).2.2 := by
  have h := C2_validation_gates_persistence.2 oHappy regAccept w0
    { message := some "feat: add x", auto_commit := some true }
    { message := "feat: add x", auto_commit := true } rfl
  exact ⟨h.2.1, h.2.2.2.2.2 "feat: add x" (by decide) rfl rfl⟩

/-- Witness for `C3_rejection_payload` at a concrete rejecting run of the direct-validate entry point. -/
theorem C3_rejection_payload_witness :
    persistCount (handleValidateAndCommit oHappy regReject w0
      { message := some "BADMSG", auto_commit := some true }).2.2 = 0
    ∧ commitCount (handleValidateAndCommit oHappy regReject w0
      { message := some "BADMSG", auto_commit := some true }).2.2 = 0 := by
  have h := C3_rejection_payload.2.1 oHappy regReject w0
    { message := some "BADMSG", auto_commit := some true }
    { message := "BADMSG", auto_commit := true }
    [{ rule := "type-empty", message := "type may not be empty" }]
    (jsonStringifyErrors [{ rule := "type-empty", message := "type may not be empty" }])
    "The commit message doesn't meet the validation requirements. Please fix the message and try again."
    rfl rfl
  exact ⟨h.2.1, h.2.2⟩

/-- Witness for `C4_preset_resolution` at the accepted style "strict". -/
theorem C4_preset_resolution_witness :
    ∃ pc, AGENT_PRESETS (jsOrStr "strict" "default") = some pc := by
  have h := C4_preset_resolution.1
    { request := some "make a strict commit", style := some "strict", auto_commit := none, auto_stage := none }
    { request := "make a strict commit", style := "strict", auto_commit := true, auto_stage := true }
    rfl
  exact h

/-- Witness for `C5_nothing_to_commit` at concrete empty-repository and empty-diff oracles. -/
theorem C5_nothing_to_commit_witness :
    (handleCommit oNothing regAccept (.reply "feat: add x") w0
      { request := some "commit my work", style := none, auto_commit := some true, auto_stage := some true }).1
      = .error (.mcpError .invalidParams "No staged or unstaged changes found")
    ∧ (handleCommit oEmptyDiff regAccept (.reply "feat: add x") w0
      { request := some "commit my work", style := none, auto_commit := some true, auto_stage := some true }).1
      = .error (.mcpError .internalError "Commit operation failed: Failed to get staged diff: No staged changes found. Please stage your changes first with \x60git add\x60.") := by
  constructor
  · exact (C5_nothing_to_commit.1 oNothing regAccept (.reply "feat: add x") w0
      { request := some "commit my work", style := none, auto_commit := some true, auto_stage := some true }
      { request := "commit my work", style := "default", auto_commit := true, auto_stage := true }
      rfl rfl rfl rfl).1
  · exact (C5_nothing_to_commit.2 oEmptyDiff regAccept (.reply "feat: add x") w0
      { request := some "commit my work", style := none, auto_commit := some true, auto_stage := some true }
      { request := "commit my work", style := "default", auto_commit := true, auto_stage := true }
      rfl rfl rfl rfl (Or.inr ⟨rfl, by decide⟩)).1

/-- Witness for `C6_not_a_repository` at a concrete non-repository oracle. -/
theorem C6_not_a_repository_witness :
    handleCommit oNoRepo regAccept (.reply "feat: add x") w0
      { request := some "commit my work", style := none, auto_commit := some true, auto_stage := some true }
      = (.error (.mcpError .invalidParams "Not in a git repository"), w0, [Event.gitCheckIsRepo])
    ∧ handleValidateAndCommit oNoRepo regAccept w0
      { message := some "feat: add x", auto_commit := some true }
      = (.error (.mcpError .invalidParams "Not in a git repository"), w0, [Event.gitCheckIsRepo]) := by
  constructor
  · exact C6_not_a_repository.1 oNoRepo regAccept (.reply "feat: add x") w0
      { request := some "commit my work", style := none, auto_commit := some true, auto_stage := some true }
      { request := "commit my work", style := "default", auto_commit := true, auto_stage := true } rfl rfl
  · exact C6_not_a_repository.2 oNoRepo regAccept w0
      { message := some "feat: add x", auto_commit := some true }
      { message := "feat: add x", auto_commit := true } rfl rfl

/-- Witness for `C7_staging_exact` at a repository with two unstaged files. -/
theorem C7_staging_exact_witness :
    stageCount (handleCommit oHappy regAccept (.reply "feat: add x") w0
      { request := some "commit my work", style := none, auto_commit := some true, auto_stage := some true }).2.2 = 1
    ∧ Event.gitStageFiles ["a.txt", "b.txt"] ∈ (handleCommit oHappy regAccept (.reply "feat: add x") w0
      { request := some "commit my work", style := none, auto_commit := some true, auto_stage := some true }).2.2 := by
  have h := C7_staging_exact oHappy regAccept (.reply "feat: add x") w0
    { request := some "commit my work", style := none, auto_commit := some true, auto_stage := some true }
    { request := "commit my work", style := "default", auto_commit := true, auto_stage := true }
    rfl rfl rfl (by decide)
  exact ⟨h.1, h.2.1⟩

/-- Witness for `C8_generation_failure_collapse` with the default preset. -/
theorem C8_generation_failure_collapse_witness :
    (generateCommitMessageWithSampling (.transportError "connection reset") "diff content"
      "commit my work" (some defaultPreset)).1
      = .error "Failed to generate commit message using sampling: connection reset"
    ∧ samplingCount (generateCommitMessageWithSampling (.reply "") "diff content"
      "commit my work" (some defaultPreset)).2 = 1 := by
  have h := C8_generation_failure_collapse "diff content" "commit my work" defaultPreset
    { requirements :=
        [ "Return ONLY the commit message, no code blocks or explanations"
        , "MUST include blank line between subject and body if body exists"
        , "Each body line should start with '- '"
        , "ALWAYS write commit message in English" ] } rfl
  exact ⟨(h.1 "connection reset").1, h.2.2.1.2⟩

/-- Witness for `C9_validate_idempotent` at a concrete accepting run. -/
theorem C9_validate_idempotent_witness :
    (handleValidateAndCommit oHappy regAccept
      ((handleValidateAndCommit oHappy regAccept w0
        { message := some "feat: add x", auto_commit := some false }).2.1)
      { message := some "feat: add x", auto_commit := some false }).1
      = (handleValidateAndCommit oHappy regAccept w0
        { message := some "feat: add x", auto_commit := some false }).1 :=
  C9_validate_idempotent oHappy regAccept w0 { message := some "feat: add x", auto_commit := some false } rfl

/-- Witness for `C10_missing_adapter_accepts`: the empty registry accepts the empty message, which is persisted and committed. -/
theorem C10_missing_adapter_accepts_witness :
    validateCommitMessage [] "" = .ok { valid := true, errors := [], warnings := [] }
    ∧ Event.gitPrepareCommitMessage "" ∈ (handleValidateAndCommit oHappy [] w0
        { message := some "", auto_commit := some true }).2.2
    ∧ Event.gitCommit "" ∈ (handleValidateAndCommit oHappy [] w0
        { message := some "", auto_commit := some true }).2.2 := by
  have h1 := C10_missing_adapter_accepts.1 [] "" rfl
  have h2 := C10_missing_adapter_accepts.2 oHappy [] w0 { message := some "", auto_commit := some true }
    { message := "", auto_commit := true } rfl rfl rfl rfl
  exact ⟨h1, h2.1, h2.2 rfl⟩
